import Mathlib

/-!
Verification of the AI Hiring Assistant script (`src/main.py`).

The script is a Streamlit page that re-runs top-to-bottom on every user
interaction.  Its observable behaviour is a transition system over the
session-state dictionary initialised at lines 111-117: on each re-run, at
most one event handler fires (a button click, or the automatic question
generation), guarded by the reveal gates visible in the source.  We embed
the session state as a structure, each handler as a function on it, and the
page's conditional rendering (progress bar, displayed question) as
functions from state to `Option`.

Strings are handled at the level of their character lists so that all
operations compute by kernel reduction.  Python's `str.strip` and
`str.isdigit` are modelled on the ASCII range (`Char.isWhitespace`,
`Char.isDigit`); every input appearing in the development is ASCII, where
the Python and Lean notions agree.  The hosted-model call at line 167 is an
oracle: the response text is a parameter of the generation step.
-/

/-- Python's `s.split(sep)` for a one-character separator, on character
lists: splits at every occurrence of `sep`, keeping empty segments, so that
`"".split(sep) = [""]` and a trailing separator yields a trailing empty
segment. -/
def splitOnChar (sep : Char) : List Char → List (List Char)
  | [] => [[]]
  | c :: cs =>
    if c = sep then [] :: splitOnChar sep cs
    else
      match splitOnChar sep cs with
      | [] => [[c]]
      | l :: ls => (c :: l) :: ls

/-- Python's `str.strip()`: remove whitespace from both ends. -/
def pyStrip (l : List Char) : List Char :=
  ((l.dropWhile Char.isWhitespace).reverse.dropWhile Char.isWhitespace).reverse

/-- `main.py` line 168:
`questions = [q.strip() for q in response.split("\n") if q.strip() and q[0].isdigit()]`.
The filter tests `q[0]`, the first character of the raw (untrimmed) line;
`q.strip()` being truthy (non-empty) guards the index. -/
def parseQuestions (response : String) : List String :=
  ((splitOnChar '\n' response.data).filter
      (fun q => !(pyStrip q).isEmpty && (q.headD ' ').isDigit)).map
    (fun q => String.mk (pyStrip q))

/-- The parse as claim C1 words it: the lines, each trimmed, keeping exactly
those whose first character AFTER trimming is a digit, excluding blank
lines.  Written from the claim's words, to be compared with
`parseQuestions`. -/
def parseQuestionsSpecC1 (response : String) : List String :=
  (((splitOnChar '\n' response.data).map pyStrip).filter
      (fun q => !q.isEmpty && (q.headD ' ').isDigit)).map String.mk

/-- The amended parse: keep exactly the lines whose first raw character
(before any trimming) is a digit — such a line is automatically non-blank —
then trim each kept line. -/
def parseQuestionsAmendedC1 (response : String) : List String :=
  ((splitOnChar '\n' response.data).filter
      (fun q => (q.headD ' ').isDigit)).map
    (fun q => String.mk (pyStrip q))

/-- `main.py` line 160:
`difficulty = "beginner" if experience < 2 else "intermediate" if experience < 5 else "advanced"`.
`experience` comes from `st.number_input(..., min_value=0, step=1)`, a
non-negative integer. -/
def difficulty (experience : Nat) : String :=
  if experience < 2 then "beginner"
  else if experience < 5 then "intermediate"
  else "advanced"

/-- Candidate profile stored at lines 130-133. -/
structure CandidateInfo where
  name : String
  email : String
  phone : String
  experience : Nat
  position : String
deriving DecidableEq, Repr

/-- The session-state fields initialised at `main.py` lines 111-117.
`candidate_info` is a Python dict that is either `{}` (falsy) or fully
populated, modelled as an `Option`; the other truthiness tests in the
script are list non-emptiness. -/
structure SessionState where
  chat_history : List (String × String)
  candidate_info : Option CandidateInfo
  tech_stack : List String
  questions : List String
  current_question_index : Nat
  answers : List String
deriving DecidableEq, Repr

/-- The initial session state (lines 111-117). -/
def initState : SessionState :=
  { chat_history := []
    candidate_info := none
    tech_stack := []
    questions := []
    current_question_index := 0
    answers := [] }

/-- `main.py` line 150: `[tech.strip() for tech in tech_stack_input.split(",")]`. -/
def parseTechStack (input : String) : List String :=
  (splitOnChar ',' input.data).map (fun t => String.mk (pyStrip t))

/-- `main.py` line 163-165: the prompt sent to the hosted model. -/
def buildPrompt (tech_stack : List String) (experience : Nat) : String :=
  "You are an AI interviewer. Generate 6 to 7 " ++ difficulty experience ++
    "-level technical questions for a candidate with expertise in " ++
    String.intercalate ", " tech_stack ++ " and " ++ toString experience ++
    " years of experience."

/-- The gate at `main.py` line 156 guarding automatic question generation:
`st.session_state["tech_stack"] and not st.session_state["questions"]`. -/
def genEnabled (s : SessionState) : Prop :=
  s.tech_stack ≠ [] ∧ s.questions = []

instance (s : SessionState) : Decidable (genEnabled s) := by
  unfold genEnabled; infer_instance

/-- Lines 167-170: parse the model response into the question list and
reset the cursor.  The response string is the oracle for the hosted-model
call. -/
def generateQuestions (s : SessionState) (response : String) : SessionState :=
  { s with questions := parseQuestions response, current_question_index := 0 }

/-- The "Submit Answer" handler body, lines 186-195.  Returns the next
state together with a flag recording whether `st.warning` was emitted:
if `user_answer.strip()` is truthy the three appends and the increment
happen (lines 188-191), otherwise nothing changes and a warning is shown
(line 195). -/
def submitAnswerRun (s : SessionState) (ans : String) : SessionState × Bool :=
  if (pyStrip ans.data).isEmpty then
    (s, true)
  else
    ({ s with
        answers := s.answers ++ [ans]
        chat_history := s.chat_history ++
          [("Bot", s.questions.getD s.current_question_index ""), ("User", ans)]
        current_question_index := s.current_question_index + 1 },
      false)

/-- The question shown at lines 179-182: rendered only when the question
list is truthy (line 172) and the cursor is in range (line 179). -/
def displayedQuestion (s : SessionState) : Option String :=
  if s.questions.isEmpty then none
  else if s.current_question_index < s.questions.length then
    some (s.questions.getD s.current_question_index "")
  else none

/-- Line 176: `progress = current_index / total_questions if total_questions else 0`
(true division of Python ints, modelled in ℚ). -/
def progressValue (s : SessionState) : ℚ :=
  if s.questions.length = 0 then 0
  else (s.current_question_index : ℚ) / (s.questions.length : ℚ)

/-- The progress bar, lines 172-177: it is rendered (with `progressValue`)
only when the question list is non-empty; otherwise the whole interview
block under `if st.session_state["questions"]:` is skipped. -/
def renderedProgress (s : SessionState) : Option ℚ :=
  if s.questions.isEmpty then none else some (progressValue s)

/-- The events that can fire during one page re-run, each guarded by the
reveal gate the script puts around it. -/
inductive Event where
  | submitDetails (name email phone : String) (experience : Nat) (position : String)
  | submitTechStack (input : String)
  | generate (response : String)
  | submitAnswer (ans : String)
  | endInterview
deriving DecidableEq, Repr

/-- One page re-run in which the given event fires.  Guards follow the
source: the details form only exists while `candidate_info` is falsy
(line 122); the tech-stack form while `candidate_info` is truthy and
`tech_stack` falsy (line 144); generation runs iff `tech_stack` is truthy
and `questions` falsy (line 156); the answer form exists while `questions`
is truthy and the cursor is in range (lines 172, 179); "End Interview"
clears the whole session state, which the init block (lines 111-117)
rebuilds as `initState` on the forced re-run. -/
def applyEvent (s : SessionState) : Event → SessionState
  | .submitDetails name email phone experience position =>
    if s.candidate_info = none then
      { s with candidate_info := some ⟨name, email, phone, experience, position⟩ }
    else s
  | .submitTechStack input =>
    if s.candidate_info ≠ none ∧ s.tech_stack = [] then
      { s with tech_stack := parseTechStack input }
    else s
  | .generate response =>
    if genEnabled s then generateQuestions s response else s
  | .submitAnswer ans =>
    if s.questions ≠ [] ∧ s.current_question_index < s.questions.length then
      (submitAnswerRun s ans).1
    else s
  | .endInterview => initState

/-- One step of the transition system: some event fires. -/
def Step (s s' : SessionState) : Prop :=
  ∃ a : Event, s' = applyEvent s a

/-- A step by any event other than "End Interview" (which ends the
session). -/
def StepNoEnd (s s' : SessionState) : Prop :=
  ∃ a : Event, a ≠ Event.endInterview ∧ s' = applyEvent s a

/-- States reachable from initialization by the program's actions. -/
def Reachable (s : SessionState) : Prop :=
  Relation.ReflTransGen Step initState s

/-- Sample candidate profile used for concrete witnesses. -/
def sampleInfo : CandidateInfo :=
  { name := "Ada", email := "ada@example.com", phone := "555", experience := 3,
    position := "Engineer" }

/-- A state in which the tech stack has been submitted but no questions
exist yet: the generation gate is open. -/
def preGenState : SessionState :=
  { initState with candidate_info := some sampleInfo, tech_stack := ["Python"] }

/-! ### Helper lemmas -/

/-- A digit character is not whitespace. -/
lemma not_whitespace_of_isDigit {c : Char} (h : c.isDigit) :
    c.isWhitespace = false := by
  by_contra hw
  simp only [Bool.not_eq_false] at hw
  simp only [Char.isWhitespace, Bool.or_eq_true, decide_eq_true_eq] at hw
  rcases hw with ((h1 | h1) | h1) | h1 <;> subst h1 <;> exact absurd h (by decide)

/-- A line whose first raw character is a digit survives `pyStrip`. -/
lemma pyStrip_ne_nil_of_head_digit (q : List Char) (h : (q.headD ' ').isDigit) :
    pyStrip q ≠ [] := by
  match q with
  | [] => exact absurd h (by decide)
  | c :: cs =>
    have hc : c.isWhitespace = false :=
      not_whitespace_of_isDigit (by simpa using h)
    intro hnil
    unfold pyStrip at hnil
    rw [List.dropWhile_cons, hc] at hnil
    simp only [Bool.false_eq_true, if_false] at hnil
    rw [List.reverse_eq_nil_iff, List.dropWhile_eq_nil_iff] at hnil
    have := hnil c (by simp)
    rw [hc] at this
    exact absurd this (by decide)

/-! ### C1: parsing the model response into questions -/

/-- C1 counterexample: the claim says a line is kept when its first
character AFTER trimming is a digit, but line 168 of `main.py` tests
`q[0]` on the raw line, so a numbered line with leading whitespace is
dropped: on the response `" 1. What is a goroutine?"` the code produces
`[]` while the claim's subsequence is `["1. What is a goroutine?"]`. -/
theorem c1_counterexample :
    parseQuestions " 1. What is a goroutine?" = [] ∧
    parseQuestionsSpecC1 " 1. What is a goroutine?" = ["1. What is a goroutine?"] ∧
    parseQuestions " 1. What is a goroutine?" ≠
      parseQuestionsSpecC1 " 1. What is a goroutine?" := by
  refine ⟨by decide, by decide, by decide⟩

/-- C1 (amended): the parsed question list equals the ordered subsequence
of the response's newline-separated lines keeping exactly those whose
first character BEFORE any trimming is a digit (such a line is
automatically non-blank), each kept line then trimmed; the claim's example
still parses to the stated two-element list. -/
theorem c1_parse_keeps_raw_digit_lines :
    (∀ response : String,
        parseQuestions response = parseQuestionsAmendedC1 response) ∧
    parseQuestions "1. What is a goroutine?\n\nsome preamble\n2. Explain indexing." =
      ["1. What is a goroutine?", "2. Explain indexing."] := by
  constructor
  · intro response
    unfold parseQuestions parseQuestionsAmendedC1
    congr 1
    apply List.filter_congr
    intro q _
    cases hd : (q.headD ' ').isDigit
    · simp
    · have hne := pyStrip_ne_nil_of_head_digit q hd
      have hp : (pyStrip q).isEmpty = false := by
        simp [List.isEmpty_iff, hne]
      simp [hp]
  · decide

/-! ### C2: difficulty thresholds -/

/-- C2: for every non-negative experience `e`, the difficulty label is
`"beginner"` iff `e < 2`, `"intermediate"` iff `2 ≤ e < 5`, and
`"advanced"` iff `e ≥ 5`. -/
theorem c2_difficulty_thresholds :
    ∀ e : Nat,
      (difficulty e = "beginner" ↔ e < 2) ∧
      (difficulty e = "intermediate" ↔ 2 ≤ e ∧ e < 5) ∧
      (difficulty e = "advanced" ↔ 5 ≤ e) := by
  intro e
  unfold difficulty
  split_ifs with h1 h2
  · exact ⟨⟨fun _ => h1, fun _ => rfl⟩,
      ⟨fun h => absurd h (by decide), fun h => absurd h1 (by omega)⟩,
      ⟨fun h => absurd h (by decide), fun h => absurd h1 (by omega)⟩⟩
  · exact ⟨⟨fun h => absurd h (by decide), fun h => absurd h h1⟩,
      ⟨fun _ => ⟨by omega, h2⟩, fun _ => rfl⟩,
      ⟨fun h => absurd h (by decide), fun h => absurd h2 (by omega)⟩⟩
  · exact ⟨⟨fun h => absurd h (by decide), fun h => absurd h h1⟩,
      ⟨fun h => absurd h (by decide), fun h => absurd h.2 h2⟩,
      ⟨fun _ => by omega, fun _ => rfl⟩⟩

/-! ### C3/C4: the Submit Answer handler -/

/-- C3: whenever a current question is displayed and the submitted answer
is non-empty after trimming, submitting appends exactly that answer to the
answers list, appends exactly the (Bot, question) pair then the
(User, answer) pair to the chat history, and increments the cursor by one. -/
theorem c3_submit_nonempty_appends (s : SessionState) (ans q : String)
    (hq : displayedQuestion s = some q) (hne : pyStrip ans.data ≠ []) :
    (applyEvent s (Event.submitAnswer ans)).answers = s.answers ++ [ans] ∧
    (applyEvent s (Event.submitAnswer ans)).chat_history =
      s.chat_history ++ [("Bot", q), ("User", ans)] ∧
    (applyEvent s (Event.submitAnswer ans)).current_question_index =
      s.current_question_index + 1 := by
  unfold displayedQuestion at hq
  by_cases he : s.questions.isEmpty
  · simp [he] at hq
  · by_cases hlt : s.current_question_index < s.questions.length
    · rw [if_neg he, if_pos hlt, Option.some_inj] at hq
      have hqs : s.questions ≠ [] := by
        intro hn
        exact he (by simp [hn])
      have hemp : (pyStrip ans.data).isEmpty = false := by
        simp [List.isEmpty_iff, hne]
      simp only [applyEvent]
      rw [if_pos ⟨hqs, hlt⟩]
      unfold submitAnswerRun
      rw [hemp]
      refine ⟨rfl, ?_, rfl⟩
      show s.chat_history ++
          [("Bot", s.questions.getD s.current_question_index ""), ("User", ans)] =
        s.chat_history ++ [("Bot", q), ("User", ans)]
      rw [hq]
    · rw [if_neg he, if_neg hlt] at hq
      exact absurd hq (by simp)

/-- Concrete state for exercising the Submit Answer handler: one question,
cursor at 0. -/
def answeringState : SessionState :=
  { initState with
      candidate_info := some sampleInfo
      tech_stack := ["Python"]
      questions := ["Q1"] }

/-- Witness for C3 at a concrete state and answer. -/
theorem c3_witness :
    (applyEvent answeringState (Event.submitAnswer "my answer")).answers =
      answeringState.answers ++ ["my answer"] ∧
    (applyEvent answeringState (Event.submitAnswer "my answer")).chat_history =
      answeringState.chat_history ++ [("Bot", "Q1"), ("User", "my answer")] ∧
    (applyEvent answeringState (Event.submitAnswer "my answer")).current_question_index =
      answeringState.current_question_index + 1 :=
  c3_submit_nonempty_appends answeringState "my answer" "Q1" (by decide) (by decide)

/-- C4: submitting an answer that is empty or whitespace-only leaves the
whole session state unchanged (in particular the cursor, answers and chat
history) and the handler emits the warning. -/
theorem c4_submit_blank_noop (s : SessionState) (ans : String)
    (hblank : pyStrip ans.data = []) :
    applyEvent s (Event.submitAnswer ans) = s ∧
    (submitAnswerRun s ans).2 = true := by
  have hemp : (pyStrip ans.data).isEmpty = true := by simp [hblank]
  constructor
  · simp only [applyEvent]
    split
    · unfold submitAnswerRun
      rw [hemp]
      rfl
    · rfl
  · unfold submitAnswerRun
    rw [hemp]
    rfl

/-- Witness for C4: a whitespace-only answer at a concrete state. -/
theorem c4_witness :
    applyEvent answeringState (Event.submitAnswer "   ") = answeringState ∧
    (submitAnswerRun answeringState "   ").2 = true :=
  c4_submit_blank_noop answeringState "   " (by decide)

/-! ### C5: model response with no digit-leading lines -/

/-- C5 counterexample: on the response `"some preamble"` (no digit-leading
line) the question list becomes empty, but then the whole interview block
guarded by `if st.session_state["questions"]:` (line 172) is skipped, so NO
progress bar is rendered — in particular none reporting 100% (value 1). -/
theorem c5_counterexample :
    parseQuestions "some preamble" = [] ∧
    (applyEvent preGenState (Event.generate "some preamble")).questions = [] ∧
    renderedProgress (applyEvent preGenState (Event.generate "some preamble")) = none ∧
    renderedProgress (applyEvent preGenState (Event.generate "some preamble")) ≠ some 1 := by
  refine ⟨by decide, by decide, by decide, by decide⟩

/-- C5 (amended): if the model response contains zero lines beginning with
a digit, the question list becomes empty and the interview pane renders
nothing at all: no progress bar (rather than one reporting 100%) and no
question to answer. -/
theorem c5_empty_parse_renders_nothing (s : SessionState) (r : String)
    (hg : genEnabled s) (hp : parseQuestions r = []) :
    (applyEvent s (Event.generate r)).questions = [] ∧
    renderedProgress (applyEvent s (Event.generate r)) = none ∧
    displayedQuestion (applyEvent s (Event.generate r)) = none := by
  simp only [applyEvent]
  rw [if_pos hg]
  unfold generateQuestions renderedProgress displayedQuestion
  simp [hp]

/-- Witness for the amended C5 at a concrete state and response. -/
theorem c5_witness :
    (applyEvent preGenState (Event.generate "no questions here")).questions = [] ∧
    renderedProgress (applyEvent preGenState (Event.generate "no questions here")) = none ∧
    displayedQuestion (applyEvent preGenState (Event.generate "no questions here")) = none :=
  c5_empty_parse_renders_nothing preGenState "no questions here" (by decide) (by decide)

/-! ### C6: the question-generation gate -/

/-- C6 counterexample: in a state where generation fires (gate open), if
the response parses to zero questions the gate `tech_stack and not
questions` (line 156) is still open afterwards, so generation runs again on
the very next re-execution — refuting "after it has run it never runs again
... regardless of the content of the model response". -/
theorem c6_counterexample :
    genEnabled preGenState ∧
    genEnabled (applyEvent preGenState (Event.generate "some preamble")) := by
  refine ⟨by decide, by decide⟩

/-- Questions stay non-empty under every event except End Interview. -/
lemma questions_ne_nil_preserved (s s' : SessionState)
    (hq : s.questions ≠ []) (h : StepNoEnd s s') : s'.questions ≠ [] := by
  obtain ⟨a, hne, rfl⟩ := h
  cases a with
  | submitDetails n e p x pos =>
    simp only [applyEvent]
    split <;> simpa
  | submitTechStack i =>
    simp only [applyEvent]
    split <;> simpa
  | generate r =>
    simp only [applyEvent]
    rw [if_neg (fun hg => hq hg.2)]
    exact hq
  | submitAnswer ans =>
    simp only [applyEvent]
    unfold submitAnswerRun
    split
    · split <;> simpa
    · exact hq
  | endInterview => exact absurd rfl hne

/-- C6 (amended): question generation executes precisely when the
tech-stack list is non-empty and the question list is empty.  If the
response parses to a non-empty question list, the gate is closed in every
state reachable by further events of the session (End Interview excluded,
as it discards the session); if the response parses to an empty list, the
gate is open again immediately, and generation fires once more on the next
re-execution. -/
theorem c6_generation_gate (s : SessionState) (r : String) (hg : genEnabled s) :
    (parseQuestions r ≠ [] →
      ∀ s', Relation.ReflTransGen StepNoEnd (applyEvent s (Event.generate r)) s' →
        ¬ genEnabled s') ∧
    (parseQuestions r = [] → genEnabled (applyEvent s (Event.generate r))) := by
  constructor
  · intro hp s' hreach
    have hbase : (applyEvent s (Event.generate r)).questions ≠ [] := by
      simp only [applyEvent]
      rw [if_pos hg]
      simpa [generateQuestions] using hp
    have hq : s'.questions ≠ [] := by
      induction hreach with
      | refl => exact hbase
      | tail hab hstep ih => exact questions_ne_nil_preserved _ _ ih hstep
    exact fun hg' => hq hg'.2
  · intro hp
    simp only [applyEvent]
    rw [if_pos hg]
    exact ⟨by simpa [generateQuestions] using hg.1, by simpa [generateQuestions] using hp⟩

/-- Witness for the amended C6: after generating from a response with a
digit-leading line, the gate is closed (instantiating the reachability at
the reflexive step). -/
theorem c6_witness :
    ¬ genEnabled (applyEvent preGenState (Event.generate "1. Q")) :=
  (c6_generation_gate preGenState "1. Q" (by decide)).1 (by decide) _
    Relation.ReflTransGen.refl

/-! ### C7: the progress value -/

/-- C7: whenever the question list is rendered (it is non-empty, so the
interview block at line 172 runs), the displayed progress value equals
`current_question_index / total_questions` when the total is positive, and
`0` otherwise (the second branch being vacuous in any rendered state). -/
theorem c7_progress_formula (s : SessionState) (h : s.questions ≠ []) :
    renderedProgress s =
      some (if 0 < s.questions.length
        then (s.current_question_index : ℚ) / (s.questions.length : ℚ)
        else 0) := by
  have hlen : 0 < s.questions.length := List.length_pos.mpr h
  have he : s.questions.isEmpty = false := by simp [List.isEmpty_iff, h]
  unfold renderedProgress progressValue
  rw [he, if_pos hlen]
  simp [Nat.pos_iff_ne_zero.mp hlen]

/-- Concrete state for the progress-bar witness: two questions, cursor 1. -/
def progressState : SessionState :=
  { initState with
      candidate_info := some sampleInfo
      tech_stack := ["Go", "SQL"]
      questions := ["Q1", "Q2"]
      current_question_index := 1
      answers := ["a1"]
      chat_history := [("Bot", "Q1"), ("User", "a1")] }

/-- Witness for C7 at a concrete rendered state. -/
theorem c7_witness :
    renderedProgress progressState =
      some (if 0 < progressState.questions.length
        then (progressState.current_question_index : ℚ) / (progressState.questions.length : ℚ)
        else 0) :=
  c7_progress_formula progressState (by decide)

/-! ### C8: End Interview resets everything -/

/-- C8: from any prior session state, the End Interview control resets
every session field to its empty initial value (`st.session_state.clear()`
at line 199 followed by the re-initialisation at lines 111-117), and the
reveal sequence restarts at the first gate: the candidate-details form,
shown exactly when `candidate_info` is falsy, is shown again. -/
theorem c8_end_interview_resets :
    ∀ s : SessionState,
      applyEvent s Event.endInterview =
        { chat_history := [], candidate_info := none, tech_stack := [],
          questions := [], current_question_index := 0, answers := [] } ∧
      (applyEvent s Event.endInterview).candidate_info = none :=
  fun _ => ⟨rfl, rfl⟩

/-! ### C9: empty tech-stack submission -/

/-- C9: submitting the tech-stack field as the empty string stores the
one-element list containing the empty string (`"".split(",") = [""]`,
each element stripped), which is truthy, so the generation gate at line
156 is open on the next re-execution. -/
theorem c9_empty_tech_stack (s : SessionState)
    (hc : s.candidate_info ≠ none) (ht : s.tech_stack = []) (hq : s.questions = []) :
    (applyEvent s (Event.submitTechStack "")).tech_stack = [""] ∧
    genEnabled (applyEvent s (Event.submitTechStack "")) := by
  simp only [applyEvent]
  rw [if_pos ⟨hc, ht⟩]
  refine ⟨?_, ?_⟩
  · show parseTechStack "" = [""]
    decide
  · unfold genEnabled
    refine ⟨?_, hq⟩
    show parseTechStack "" ≠ []
    decide

/-- Concrete state for the empty tech-stack witness: details submitted,
nothing else. -/
def detailsOnlyState : SessionState :=
  { initState with candidate_info := some sampleInfo }

/-- Witness for C9 at a concrete state. -/
theorem c9_witness :
    (applyEvent detailsOnlyState (Event.submitTechStack "")).tech_stack = [""] ∧
    genEnabled (applyEvent detailsOnlyState (Event.submitTechStack "")) :=
  c9_empty_tech_stack detailsOnlyState (by decide) rfl rfl

/-! ### C10: the session invariant -/

/-- The inductive invariant: the book-keeping equalities of claim C10
strengthened with the fact that the cursor is zero while no questions
exist (needed to carry the invariant through question generation, which
resets the cursor but not the answers or the chat history). -/
def sessionInv (s : SessionState) : Prop :=
  s.answers.length = s.current_question_index ∧
  s.chat_history.length = 2 * s.current_question_index ∧
  s.current_question_index ≤ s.questions.length ∧
  (s.questions = [] → s.current_question_index = 0)

/-- The initial state satisfies the invariant. -/
lemma sessionInv_init : sessionInv initState :=
  ⟨rfl, rfl, Nat.le_refl 0, fun _ => rfl⟩

/-- Every event preserves the invariant. -/
lemma sessionInv_step (s s' : SessionState) (hInv : sessionInv s) (h : Step s s') :
    sessionInv s' := by
  obtain ⟨a, rfl⟩ := h
  obtain ⟨h1, h2, h3, h4⟩ := hInv
  cases a with
  | submitDetails n e p x pos =>
    simp only [applyEvent]
    split <;> exact ⟨h1, h2, h3, h4⟩
  | submitTechStack i =>
    simp only [applyEvent]
    split <;> exact ⟨h1, h2, h3, h4⟩
  | generate r =>
    simp only [applyEvent]
    split
    · rename_i hg
      have hidx := h4 hg.2
      unfold generateQuestions
      exact ⟨h1.trans hidx, by rw [h2, hidx], Nat.zero_le _, fun _ => rfl⟩
    · exact ⟨h1, h2, h3, h4⟩
  | submitAnswer ans =>
    simp only [applyEvent]
    split
    · rename_i hcond
      unfold submitAnswerRun
      split
      · exact ⟨h1, h2, h3, h4⟩
      · refine ⟨?_, ?_, ?_, ?_⟩
        · show (s.answers ++ [ans]).length = s.current_question_index + 1
          simp [h1]
        · show (s.chat_history ++
              [("Bot", s.questions.getD s.current_question_index ""),
                ("User", ans)]).length = 2 * (s.current_question_index + 1)
          simp [h2]
          omega
        · exact hcond.2
        · exact fun hqq => absurd hqq hcond.1
    · exact ⟨h1, h2, h3, h4⟩
  | endInterview => exact sessionInv_init

/-- C10: in every session state reachable from initialization by the
program's events, the answers list has exactly cursor-many entries, the
chat history has exactly twice that many, and the cursor never exceeds the
question count. -/
theorem c10_reachable_invariant (s : SessionState) (h : Reachable s) :
    s.answers.length = s.current_question_index ∧
    s.chat_history.length = 2 * s.current_question_index ∧
    s.current_question_index ≤ s.questions.length := by
  have hInv : sessionInv s := by
    unfold Reachable at h
    induction h with
    | refl => exact sessionInv_init
    | tail hab hstep ih => exact sessionInv_step _ _ ih hstep
  exact ⟨hInv.1, hInv.2.1, hInv.2.2.1⟩

/-- Witness for C10 at the initial state, reachable by the empty run. -/
theorem c10_witness :
    initState.answers.length = initState.current_question_index ∧
    initState.chat_history.length = 2 * initState.current_question_index ∧
    initState.current_question_index ≤ initState.questions.length :=
  c10_reachable_invariant initState Relation.ReflTransGen.refl
